import Mathlib

/-!
Verification of `scripts/setup_app_icon.py` (Quanta app-icon setup script).

Shallow embedding: the PIL library calls (`Image.open`, `resize`, `Image.new`,
`paste`) are uninterpreted — an image's pixel content is the term of library
operations that produced it (`ImageData`).  File-system effects are explicit:
each modelled function returns the list of `(path, content)` pairs it writes,
in write order.  The environment `Env` supplies the facts the script observes
about the outside world: whether the source path exists, what `Image.open`
yields (`none` models an exception while loading), and whether some save call
raises (`saveFail = some k` models an I/O exception at the k-th save).
`os.listdir` order is modelled as an explicit `listing` argument.
-/

namespace SetupAppIcon

abbrev Path := String

/-- A source image as `Image.open` yields it: its size and its PIL mode. -/
structure SrcImage where
  width : Nat
  height : Nat
  mode : String
deriving DecidableEq, Repr

/-- Pixel content as the term of library operations that produced it:
the opened source, a `resize` call, an `Image.new` call, or a `paste`
(base, pasted image, position, and whether a mask was passed — in the script
the mask is either the pasted image itself or `None`, so a Bool records it). -/
inductive ImageData where
  | src : SrcImage → ImageData
  | resized : ImageData → Nat → Nat → ImageData
  | newRGB : Nat → Nat → String → ImageData
  | pasted : ImageData → ImageData → Nat → Nat → Bool → ImageData
deriving DecidableEq, Repr

/-- PIL mode of an image: `resize` keeps the mode, `Image.new('RGB',..)` is RGB,
`paste` keeps the base's mode. -/
def ImageData.mode : ImageData → String
  | .src s => s.mode
  | .resized d _ _ => d.mode
  | .newRGB _ _ _ => "RGB"
  | .pasted base _ _ _ _ => base.mode

/-- One entry of the `images` array of the iOS `Contents.json` manifest. -/
structure IconEntry where
  filename : String
  idiom : String
  scale : String
  size : String
deriving DecidableEq, Repr

/-- The iOS `Contents.json` manifest, structurally. -/
structure ContentsJson where
  images : List IconEntry
  author : String
  version : Nat
deriving DecidableEq, Repr

/-- Content of a written file: a PNG-saved image, or the JSON manifest. -/
inductive FileContent where
  | png : ImageData → FileContent
  | json : ContentsJson → FileContent
deriving DecidableEq, Repr

/-- The static size table of the script (`ICON_SIZES` dict). -/
def ICON_SIZES : String → List (Nat × Nat × String)
  | "ios" =>
    [ (1024, 1024, "ios-marketing"),
      (180, 180, "iphone-app-60pt@3x"),
      (167, 167, "ipad-pro-app"),
      (152, 152, "ipad-app-76pt@2x"),
      (120, 120, "iphone-app-60pt@2x"),
      (87, 87, "iphone-settings-29pt@3x"),
      (80, 80, "iphone-spotlight-40pt@2x"),
      (76, 76, "ipad-app-76pt@1x"),
      (58, 58, "iphone-settings-29pt@2x"),
      (40, 40, "iphone-spotlight-40pt@1x"),
      (29, 29, "iphone-settings-29pt@1x"),
      (20, 20, "iphone-notification-20pt@1x") ]
  | "android" =>
    [ (192, 192, "xxxhdpi"),
      (144, 144, "xxhdpi"),
      (96, 96, "xhdpi"),
      (72, 72, "hdpi"),
      (48, 48, "mdpi") ]
  | "store" =>
    [ (512, 512, "play_store"),
      (1024, 500, "play_store_feature") ]
  | _ => []

/-- The nine directories `create_directories` creates. -/
def directories : List Path :=
  [ "assets/app_icons/generated/ios",
    "assets/app_icons/generated/android",
    "assets/app_icons/generated/store",
    "android/app/src/main/res/mipmap-xxxhdpi",
    "android/app/src/main/res/mipmap-xxhdpi",
    "android/app/src/main/res/mipmap-xhdpi",
    "android/app/src/main/res/mipmap-hdpi",
    "android/app/src/main/res/mipmap-mdpi",
    "ios/Runner/Assets.xcassets/AppIcon.appiconset" ]

/-- The iOS loop of `generate_icons`: one PNG per `ICON_SIZES['ios']` row. -/
def iosWrites (img : ImageData) : List (Path × FileContent) :=
  (ICON_SIZES "ios").map fun t =>
    match t with
    | (w, h, name) =>
      (s!"assets/app_icons/generated/ios/icon_{w}x{h}_{name}.png",
       FileContent.png (ImageData.resized img w h))

/-- The Android loop of `generate_icons`: each density row saves the resized
image three times — in the assets folder, as `ic_launcher.png`, and as
`ic_launcher_round.png` in the mipmap folder. -/
def androidWrites (img : ImageData) : List (Path × FileContent) :=
  (ICON_SIZES "android").flatMap fun t =>
    match t with
    | (w, h, density) =>
      let r := FileContent.png (ImageData.resized img w h)
      [ (s!"assets/app_icons/generated/android/icon_{w}x{h}_{density}.png", r),
        (s!"android/app/src/main/res/mipmap-{density}/ic_launcher.png", r),
        (s!"android/app/src/main/res/mipmap-{density}/ic_launcher_round.png", r) ]

/-- The store loop of `generate_icons`: the 1024×500 row builds the feature
graphic (blue background, 400×400 resized icon pasted at (312, 50), mask used
when the resized icon is RGBA); every other row is a plain resize. -/
def storeWrites (img : ImageData) : List (Path × FileContent) :=
  (ICON_SIZES "store").map fun t =>
    match t with
    | (w, h, name) =>
      if w == 1024 && h == 500 then
        let icon := ImageData.resized img 400 400
        ("assets/app_icons/generated/store/feature_graphic_1024x500.png",
         FileContent.png (ImageData.pasted (ImageData.newRGB 1024 500 "#1976D2")
           icon 312 50 (icon.mode == "RGBA")))
      else
        (s!"assets/app_icons/generated/store/icon_{w}x{h}_{name}.png",
         FileContent.png (ImageData.resized img w h))

/-- Environment observed by `generate_icons`. -/
structure Env where
  sourceExists : Bool
  openResult : Option SrcImage
  saveFail : Option Nat
deriving DecidableEq, Repr

/-- Result of `generate_icons`: the returned Bool, the files written in order,
and whether the size warning was printed. -/
structure GenResult where
  ret : Bool
  writes : List (Path × FileContent)
  sizeWarning : Bool
deriving DecidableEq, Repr

/-- The saves of the three loops of `generate_icons`, in program order. -/
def plannedWrites (img : ImageData) : List (Path × FileContent) :=
  iosWrites img ++ androidWrites img ++ storeWrites img

/-- `generate_icons`: returns False if the source path does not exist; opens
the image (an exception while opening is `openResult = none` and is caught,
returning False); warns if the size is not (1024, 1024) but proceeds; runs the
three loops; an exception at the k-th save (`saveFail = some k`) leaves the
first k writes done and returns False; otherwise returns True. -/
def generate_icons (env : Env) : GenResult :=
  if !env.sourceExists then ⟨false, [], false⟩
  else
    match env.openResult with
    | none => ⟨false, [], false⟩
    | some s =>
      let warn := !(s.width == 1024 && s.height == 1024)
      let planned := plannedWrites (ImageData.src s)
      match env.saveFail with
      | none => ⟨true, planned, warn⟩
      | some k =>
        if k < planned.length then ⟨false, planned.take k, warn⟩
        else ⟨true, planned, warn⟩

/-- The manifest contents literal of `create_ios_contents_json`. -/
def iosContents : ContentsJson :=
  { images :=
      [ ⟨"icon_1024x1024_ios-marketing.png", "ios-marketing", "1x", "1024x1024"⟩,
        ⟨"icon_180x180_iphone-app-60pt@3x.png", "iphone", "3x", "60x60"⟩,
        ⟨"icon_120x120_iphone-app-60pt@2x.png", "iphone", "2x", "60x60"⟩,
        ⟨"icon_87x87_iphone-settings-29pt@3x.png", "iphone", "3x", "29x29"⟩,
        ⟨"icon_58x58_iphone-settings-29pt@2x.png", "iphone", "2x", "29x29"⟩,
        ⟨"icon_29x29_iphone-settings-29pt@1x.png", "iphone", "1x", "29x29"⟩,
        ⟨"icon_80x80_iphone-spotlight-40pt@2x.png", "iphone", "2x", "40x40"⟩,
        ⟨"icon_40x40_iphone-spotlight-40pt@1x.png", "iphone", "1x", "40x40"⟩,
        ⟨"icon_20x20_iphone-notification-20pt@1x.png", "iphone", "1x", "20x20"⟩,
        ⟨"icon_167x167_ipad-pro-app.png", "ipad", "2x", "83.5x83.5"⟩,
        ⟨"icon_152x152_ipad-app-76pt@2x.png", "ipad", "2x", "76x76"⟩,
        ⟨"icon_76x76_ipad-app-76pt@1x.png", "ipad", "1x", "76x76"⟩ ],
    author := "Quanta App Icon Generator",
    version := 1 }

/-- `create_ios_contents_json`: writes the manifest to the appiconset folder. -/
def create_ios_contents_json : Path × FileContent :=
  ("ios/Runner/Assets.xcassets/AppIcon.appiconset/Contents.json",
   FileContent.json iosContents)

/-- File-system contents as a map from path to content; `applyWrites` plays a
write list over it in order (later writes win). -/
def applyWrites (ws : List (Path × FileContent)) (fs : Path → Option FileContent) :
    Path → Option FileContent :=
  ws.foldl (fun acc pc => fun p => if p = pc.1 then some pc.2 else acc p) fs

/-- The empty file system. -/
def emptyFS : Path → Option FileContent := fun _ => none

/-- Python's `str.endswith(suffix)`, on character lists so it computes. -/
def endsWithStr (s suffix : String) : Bool :=
  List.isSuffixOf suffix.data s.data

/-- `copy_icons_to_ios`: returns early if the source dir does not exist; else
copies every `.png` file of the listing of `assets/app_icons/generated/ios`
into the appiconset folder, content taken from the file system. -/
def copy_icons_to_ios (sourceDirExists : Bool) (listing : List String)
    (fs : Path → Option FileContent) : List (Path × FileContent) :=
  if !sourceDirExists then []
  else
    (listing.filter (fun f => endsWithStr f ".png")).filterMap fun f =>
      match fs ("assets/app_icons/generated/ios/" ++ f) with
      | some c => some ("ios/Runner/Assets.xcassets/AppIcon.appiconset/" ++ f, c)
      | none => none

/-- Observable steps of `main`, in execution order. -/
inductive Event where
  | usage
  | createDirs
  | genIcons : Bool → Event
  | manifest
  | copyIos
  | nextSteps
  | exitCode : Nat → Event
deriving DecidableEq, Repr

/-- Result of a run of `main`: the event trace, all file writes in order, and
the exit status (`none` = normal return). -/
structure MainResult where
  events : List Event
  writes : List (Path × FileContent)
  exit : Option Nat
deriving Repr

/-- `main`: with other than exactly one argument, prints usage and exits 1;
else creates the directories, runs `generate_icons`, and on success writes the
manifest, copies the iOS icons (the generated-ios dir exists — it was just
created) and prints next steps; on failure exits 1.  `listing` is what
`os.listdir` returns for the generated-ios dir at the copy step. -/
def main (argv : List String) (env : Env) (listing : List String) : MainResult :=
  if argv.length != 2 then ⟨[.usage, .exitCode 1], [], some 1⟩
  else
    let g := generate_icons env
    if g.ret then
      let fs := applyWrites g.writes emptyFS
      let copied := copy_icons_to_ios true listing fs
      ⟨[.createDirs, .genIcons true, .manifest, .copyIos, .nextSteps],
       g.writes ++ [create_ios_contents_json] ++ copied, none⟩
    else
      ⟨[.createDirs, .genIcons false, .exitCode 1], g.writes, some 1⟩

/-- The 29 paths `generate_icons` writes, in write order. -/
def expectedPaths : List Path :=
  [ "assets/app_icons/generated/ios/icon_1024x1024_ios-marketing.png",
    "assets/app_icons/generated/ios/icon_180x180_iphone-app-60pt@3x.png",
    "assets/app_icons/generated/ios/icon_167x167_ipad-pro-app.png",
    "assets/app_icons/generated/ios/icon_152x152_ipad-app-76pt@2x.png",
    "assets/app_icons/generated/ios/icon_120x120_iphone-app-60pt@2x.png",
    "assets/app_icons/generated/ios/icon_87x87_iphone-settings-29pt@3x.png",
    "assets/app_icons/generated/ios/icon_80x80_iphone-spotlight-40pt@2x.png",
    "assets/app_icons/generated/ios/icon_76x76_ipad-app-76pt@1x.png",
    "assets/app_icons/generated/ios/icon_58x58_iphone-settings-29pt@2x.png",
    "assets/app_icons/generated/ios/icon_40x40_iphone-spotlight-40pt@1x.png",
    "assets/app_icons/generated/ios/icon_29x29_iphone-settings-29pt@1x.png",
    "assets/app_icons/generated/ios/icon_20x20_iphone-notification-20pt@1x.png",
    "assets/app_icons/generated/android/icon_192x192_xxxhdpi.png",
    "android/app/src/main/res/mipmap-xxxhdpi/ic_launcher.png",
    "android/app/src/main/res/mipmap-xxxhdpi/ic_launcher_round.png",
    "assets/app_icons/generated/android/icon_144x144_xxhdpi.png",
    "android/app/src/main/res/mipmap-xxhdpi/ic_launcher.png",
    "android/app/src/main/res/mipmap-xxhdpi/ic_launcher_round.png",
    "assets/app_icons/generated/android/icon_96x96_xhdpi.png",
    "android/app/src/main/res/mipmap-xhdpi/ic_launcher.png",
    "android/app/src/main/res/mipmap-xhdpi/ic_launcher_round.png",
    "assets/app_icons/generated/android/icon_72x72_hdpi.png",
    "android/app/src/main/res/mipmap-hdpi/ic_launcher.png",
    "android/app/src/main/res/mipmap-hdpi/ic_launcher_round.png",
    "assets/app_icons/generated/android/icon_48x48_mdpi.png",
    "android/app/src/main/res/mipmap-mdpi/ic_launcher.png",
    "android/app/src/main/res/mipmap-mdpi/ic_launcher_round.png",
    "assets/app_icons/generated/store/icon_512x512_play_store.png",
    "assets/app_icons/generated/store/feature_graphic_1024x500.png" ]

/-- The 12 filenames `generate_icons` puts into the generated-ios dir; this is
what `os.listdir` of that dir yields (in some order) at the copy step. -/
def iosFilenames : List String :=
  [ "icon_1024x1024_ios-marketing.png",
    "icon_180x180_iphone-app-60pt@3x.png",
    "icon_167x167_ipad-pro-app.png",
    "icon_152x152_ipad-app-76pt@2x.png",
    "icon_120x120_iphone-app-60pt@2x.png",
    "icon_87x87_iphone-settings-29pt@3x.png",
    "icon_80x80_iphone-spotlight-40pt@2x.png",
    "icon_76x76_ipad-app-76pt@1x.png",
    "icon_58x58_iphone-settings-29pt@2x.png",
    "icon_40x40_iphone-spotlight-40pt@1x.png",
    "icon_29x29_iphone-settings-29pt@1x.png",
    "icon_20x20_iphone-notification-20pt@1x.png" ]

/-- Claim-side predicate: the content is the source image put through the
library resize call (a resized variant of the source). -/
def contentIsSourceResize : FileContent → Bool
  | .png (.resized (.src _) _ _) => true
  | _ => false

/-- The content is a PNG-saved image. -/
def FileContent.isPng : FileContent → Bool
  | .png _ => true
  | .json _ => false

/-- Claim-side predicate: the path lies under one of the nine directories
`create_directories` creates (the path starts with the directory name followed
by a separator; compared on character lists so it computes). -/
def underSomeDir (p : Path) : Bool :=
  directories.any fun d => List.isPrefixOf (d ++ "/").data p.data

/-- The contents of the 28 non-feature-graphic files `generate_icons` writes,
in write order: each is the source resampled to that file's listed
dimensions. -/
def expectedResizedContents (img : ImageData) : List FileContent :=
  [ .png (.resized img 1024 1024), .png (.resized img 180 180),
    .png (.resized img 167 167), .png (.resized img 152 152),
    .png (.resized img 120 120), .png (.resized img 87 87),
    .png (.resized img 80 80), .png (.resized img 76 76),
    .png (.resized img 58 58), .png (.resized img 40 40),
    .png (.resized img 29 29), .png (.resized img 20 20),
    .png (.resized img 192 192), .png (.resized img 192 192),
    .png (.resized img 192 192), .png (.resized img 144 144),
    .png (.resized img 144 144), .png (.resized img 144 144),
    .png (.resized img 96 96), .png (.resized img 96 96),
    .png (.resized img 96 96), .png (.resized img 72 72),
    .png (.resized img 72 72), .png (.resized img 72 72),
    .png (.resized img 48 48), .png (.resized img 48 48),
    .png (.resized img 48 48), .png (.resized img 512 512) ]

/-- The path of the store feature graphic. -/
def featurePath : Path := "assets/app_icons/generated/store/feature_graphic_1024x500.png"

/-- A command line with exactly one source-image argument. -/
def argvOk : List String := ["setup_app_icon.py", "assets/app_icons/quanta_icon_1024.png"]

/-- A well-formed run: source exists, loads as a 1024×1024 RGBA image, and no
save raises. -/
def srcOk : SrcImage := ⟨1024, 1024, "RGBA"⟩

/-- Environment of the well-formed run. -/
def envOk : Env := ⟨true, some srcOk, none⟩

/-- A source image whose size is not (1024, 1024). -/
def src512 : SrcImage := ⟨512, 512, "RGBA"⟩

/-- Environment where the source loads as a 512×512 image. -/
def env512 : Env := ⟨true, some src512, none⟩

set_option maxRecDepth 100000

/-- Every save of the three loops stores a PNG image. -/
theorem planned_all_png (img : ImageData) :
    (plannedWrites img).all (fun pc => pc.2.isPng) = true := rfl

/-- Every save of the three loops targets a path under a created directory. -/
theorem planned_all_under (img : ImageData) :
    (plannedWrites img).all (fun pc => underSomeDir pc.1) = true := rfl

/-- Shape of `generate_icons` when a save raises: the first k writes happen. -/
theorem gen_eq_saveFail (s : SrcImage) (k : Nat) :
    generate_icons ⟨true, some s, some k⟩ =
      if k < (plannedWrites (ImageData.src s)).length
      then ⟨false, (plannedWrites (ImageData.src s)).take k,
            !(s.width == 1024 && s.height == 1024)⟩
      else ⟨true, plannedWrites (ImageData.src s),
            !(s.width == 1024 && s.height == 1024)⟩ := rfl

/-- Whatever the environment, every file `generate_icons` writes satisfies any
property that all planned saves satisfy. -/
theorem gen_writes_all (env : Env) (p : Path × FileContent → Bool)
    (hp : ∀ img, (plannedWrites img).all p = true) :
    ∀ pc ∈ (generate_icons env).writes, p pc = true := by
  obtain ⟨a, b, c⟩ := env
  intro pc hpc
  have hall := fun img => List.all_eq_true.mp (hp img)
  cases a
  · exact absurd hpc (by simp [generate_icons])
  · cases b with
    | none => exact absurd hpc (by simp [generate_icons])
    | some s =>
      cases c with
      | none => exact hall (ImageData.src s) pc hpc
      | some k =>
        rw [gen_eq_saveFail] at hpc
        split at hpc
        · exact hall (ImageData.src s) pc (List.take_subset _ _ hpc)
        · exact hall (ImageData.src s) pc hpc

/-- C1: for every source image that exists and loads successfully (and no save
raises), `generate_icons` writes exactly the fixed set of PNG files of the
`ICON_SIZES` table: the 29 paths of `expectedPaths` (12 iOS saves, 15 Android
saves — 5 densities times 3 locations — and 2 store saves), all distinct, no
more and no fewer. -/
theorem C1_generate_icons_fixed_set (env : Env) (s : SrcImage)
    (hex : env.sourceExists = true) (hopen : env.openResult = some s)
    (hsave : env.saveFail = none) :
    (generate_icons env).writes.map Prod.fst = expectedPaths ∧
    expectedPaths.Nodup ∧
    (iosWrites (ImageData.src s)).length = 12 ∧
    (androidWrites (ImageData.src s)).length = 15 ∧
    (storeWrites (ImageData.src s)).length = 2 := by
  obtain ⟨a, b, c⟩ := env
  subst hex; subst hopen; subst hsave
  exact ⟨rfl, by decide, rfl, rfl, rfl⟩

/-- Witness for C1 at the well-formed run. -/
theorem C1_generate_icons_fixed_set_witness :
    (generate_icons envOk).writes.map Prod.fst = expectedPaths ∧
    expectedPaths.Nodup ∧
    (iosWrites (ImageData.src srcOk)).length = 12 ∧
    (androidWrites (ImageData.src srcOk)).length = 15 ∧
    (storeWrites (ImageData.src srcOk)).length = 2 :=
  C1_generate_icons_fixed_set envOk srcOk rfl rfl rfl

/-- C2 counterexample: in the well-formed run, not every written asset is the
source image put through the library resize call — the last write, the
1024×500 feature graphic, is a paste composite over a new background. -/
theorem C2_counterexample :
    (((generate_icons envOk).writes.all fun pc => contentIsSourceResize pc.2)
        = false) ∧
    (generate_icons envOk).writes.getLast? =
      some (featurePath,
        FileContent.png (ImageData.pasted (ImageData.newRGB 1024 500 "#1976D2")
          (ImageData.resized (ImageData.src srcOk) 400 400) 312 50 true)) :=
  ⟨rfl, rfl⟩

/-- C2 amended: every produced asset except the 1024×500 feature graphic has
content equal to the source resampled to that file's listed dimensions via the
library resize call (`expectedResizedContents`, in write order); the feature
graphic instead is a composite — a new 1024×500 background of color #1976D2
with the source resized to 400×400 pasted at (312, 50), masked when RGBA. -/
theorem C2_amended_all_but_feature_resized (env : Env) (s : SrcImage)
    (hex : env.sourceExists = true) (hopen : env.openResult = some s)
    (hsave : env.saveFail = none) :
    ((generate_icons env).writes.filter
        (fun pc => pc.1 != featurePath)).map Prod.snd =
      expectedResizedContents (ImageData.src s) ∧
    (generate_icons env).writes.getLast? =
      some (featurePath,
        FileContent.png (ImageData.pasted (ImageData.newRGB 1024 500 "#1976D2")
          (ImageData.resized (ImageData.src s) 400 400) 312 50
          (s.mode == "RGBA"))) := by
  obtain ⟨a, b, c⟩ := env
  subst hex; subst hopen; subst hsave
  exact ⟨rfl, rfl⟩

/-- Witness for the amended C2 at a 1024×1024 RGB (non-alpha) source. -/
theorem C2_amended_all_but_feature_resized_witness :
    ((generate_icons ⟨true, some ⟨1024, 1024, "RGB"⟩, none⟩).writes.filter
        (fun pc => pc.1 != featurePath)).map Prod.snd =
      expectedResizedContents (ImageData.src ⟨1024, 1024, "RGB"⟩) ∧
    (generate_icons ⟨true, some ⟨1024, 1024, "RGB"⟩, none⟩).writes.getLast? =
      some (featurePath,
        FileContent.png (ImageData.pasted (ImageData.newRGB 1024 500 "#1976D2")
          (ImageData.resized (ImageData.src ⟨1024, 1024, "RGB"⟩) 400 400) 312 50
          ((⟨1024, 1024, "RGB"⟩ : SrcImage).mode == "RGBA"))) :=
  C2_amended_all_but_feature_resized ⟨true, some ⟨1024, 1024, "RGB"⟩, none⟩
    ⟨1024, 1024, "RGB"⟩ rfl rfl rfl

/-- C3 counterexample: a 512×512 source image is accepted — generation runs to
completion, returns True and writes the full fixed set of files; only the size
warning is emitted. -/
theorem C3_counterexample :
    (generate_icons env512).ret = true ∧
    (generate_icons env512).writes.map Prod.fst = expectedPaths ∧
    (generate_icons env512).sizeWarning = true :=
  ⟨rfl, rfl, rfl⟩

/-- C3 amended: the script checks the source dimensions but only prints a
warning when they are not (1024, 1024); icon generation proceeds identically —
returning True and writing the full fixed set — for a source of any
dimensions. -/
theorem C3_amended_warning_only (env : Env) (s : SrcImage)
    (hex : env.sourceExists = true) (hopen : env.openResult = some s)
    (hsave : env.saveFail = none) :
    (generate_icons env).ret = true ∧
    (generate_icons env).writes.map Prod.fst = expectedPaths ∧
    (generate_icons env).sizeWarning
      = !(s.width == 1024 && s.height == 1024) := by
  obtain ⟨a, b, c⟩ := env
  subst hex; subst hopen; subst hsave
  exact ⟨rfl, rfl, rfl⟩

/-- Witness for the amended C3 at a 512×512 source: generation proceeds and
the warning fires. -/
theorem C3_amended_warning_only_witness :
    (generate_icons env512).ret = true ∧
    (generate_icons env512).writes.map Prod.fst = expectedPaths ∧
    (generate_icons env512).sizeWarning
      = !(src512.width == 1024 && src512.height == 1024) :=
  C3_amended_warning_only env512 src512 rfl rfl rfl

/-- C4: `generate_icons` returns False exactly when the source path does not
exist, loading raises, or one of the 29 saves raises (k < 29); it returns True
in every other case, and when the source path does not exist it writes
nothing. -/
theorem C4_false_iff_failure (env : Env) :
    ((generate_icons env).ret = false ↔
      env.sourceExists = false ∨ env.openResult = none ∨
        ∃ k, env.saveFail = some k ∧ k < 29) ∧
    (env.sourceExists = false → (generate_icons env).writes = []) := by
  obtain ⟨a, b, c⟩ := env
  cases a
  · simp [generate_icons]
  · cases b with
    | none => simp [generate_icons]
    | some s =>
      cases c with
      | none =>
        constructor
        · simp [generate_icons]
        · intro h; exact Bool.noConfusion h
      | some k =>
        constructor
        · rw [gen_eq_saveFail]
          split
          · rename_i hk
            exact iff_of_true rfl (Or.inr (Or.inr ⟨k, rfl, hk⟩))
          · rename_i hk
            refine iff_of_false (by simp) ?_
            rintro (h | h | ⟨k', hk', hlt⟩)
            · exact Bool.noConfusion h
            · exact Option.noConfusion h
            · injection hk' with h'
              subst h'
              exact hk hlt
        · intro h; exact Bool.noConfusion h

/-- Witness for C4: a missing source returns False with no writes, and the
well-formed run returns True. -/
theorem C4_false_iff_failure_witness :
    (generate_icons ⟨false, none, none⟩).ret = false ∧
    (generate_icons ⟨false, none, none⟩).writes = [] ∧
    (generate_icons envOk).ret ≠ false :=
  ⟨(C4_false_iff_failure ⟨false, none, none⟩).1.mpr (Or.inl rfl),
   (C4_false_iff_failure ⟨false, none, none⟩).2 rfl,
   fun h => by
     rcases (C4_false_iff_failure envOk).1.mp h with h' | h' | ⟨k, hk, _⟩
     · exact Bool.noConfusion h'
     · exact Option.noConfusion h'
     · exact Option.noConfusion hk⟩

/-- Shape of `main` with a wrong argument count. -/
theorem main_usage_eq (argv : List String) (env : Env) (listing : List String)
    (hb : (argv.length != 2) = true) :
    main argv env listing = ⟨[.usage, .exitCode 1], [], some 1⟩ := by
  unfold main
  rw [if_pos hb]

/-- Shape of `main` with exactly one source-image argument. -/
theorem main_run_eq (argv : List String) (env : Env) (listing : List String)
    (hb : (argv.length != 2) = false) :
    main argv env listing =
      if (generate_icons env).ret then
        ⟨[.createDirs, .genIcons true, .manifest, .copyIos, .nextSteps],
         (generate_icons env).writes ++ [create_ios_contents_json] ++
           copy_icons_to_ios true listing
             (applyWrites (generate_icons env).writes emptyFS),
         none⟩
      else
        ⟨[.createDirs, .genIcons false, .exitCode 1],
         (generate_icons env).writes, some 1⟩ := by
  unfold main
  rw [hb, if_neg Bool.false_ne_true]

/-- A file of the generated-ios listing whose copy source is on the file system
is copied into the appiconset folder. -/
theorem copy_mem_of_listing (listing : List String)
    (hperm : listing.Perm iosFilenames) (fs : Path → Option FileContent)
    (f : String) (hf : f ∈ iosFilenames) (hpng : endsWithStr f ".png" = true)
    (c : FileContent)
    (hfs : fs ("assets/app_icons/generated/ios/" ++ f) = some c) :
    ("ios/Runner/Assets.xcassets/AppIcon.appiconset/" ++ f, c) ∈
      copy_icons_to_ios true listing fs := by
  unfold copy_icons_to_ios
  rw [if_neg (by simp)]
  refine List.mem_filterMap.mpr
    ⟨f, List.mem_filter.mpr ⟨hperm.mem_iff.mpr hf, hpng⟩, ?_⟩
  rw [hfs]

/-- C5: the manifest has exactly 12 image entries, the generated iOS filenames
are those of the `ICON_SIZES['ios']` table, every manifest entry's filename is
one of them, and after `copy_icons_to_ios` (run on any listing of the
generated-ios directory) every file the manifest references has been copied
into the appiconset directory. -/
theorem C5_manifest_entries_exist (env : Env) (s : SrcImage)
    (listing : List String)
    (hex : env.sourceExists = true) (hopen : env.openResult = some s)
    (hsave : env.saveFail = none) (hperm : listing.Perm iosFilenames) :
    iosContents.images.length = 12 ∧
    ((ICON_SIZES "ios").map fun t => match t with
      | (w, h, name) => s!"icon_{w}x{h}_{name}.png") = iosFilenames ∧
    (∀ e ∈ iosContents.images, e.filename ∈ iosFilenames) ∧
    (∀ e ∈ iosContents.images, ∃ c,
      ("ios/Runner/Assets.xcassets/AppIcon.appiconset/" ++ e.filename, c) ∈
        copy_icons_to_ios true listing
          (applyWrites (generate_icons env).writes emptyFS)) := by
  obtain ⟨a, b, c⟩ := env
  subst hex; subst hopen; subst hsave
  refine ⟨rfl, rfl, by decide, ?_⟩
  intro e he
  simp only [iosContents, List.mem_cons, List.not_mem_nil, or_false] at he
  rcases he with rfl | rfl | rfl | rfl | rfl | rfl | rfl | rfl | rfl | rfl | rfl | rfl <;>
    exact ⟨_, copy_mem_of_listing listing hperm _ _ (by decide) (by decide) _ rfl⟩

/-- Witness for C5 at the well-formed run with the canonical listing. -/
theorem C5_manifest_entries_exist_witness :
    iosContents.images.length = 12 ∧
    (∃ c,
      ("ios/Runner/Assets.xcassets/AppIcon.appiconset/" ++
          "icon_76x76_ipad-app-76pt@1x.png", c) ∈
        copy_icons_to_ios true iosFilenames
          (applyWrites (generate_icons envOk).writes emptyFS)) :=
  ⟨(C5_manifest_entries_exist envOk srcOk iosFilenames rfl rfl rfl
      (List.Perm.refl _)).1,
   (C5_manifest_entries_exist envOk srcOk iosFilenames rfl rfl rfl
      (List.Perm.refl _)).2.2.2
     ⟨"icon_76x76_ipad-app-76pt@1x.png", "ipad", "1x", "76x76"⟩ (by decide)⟩

/-- C6: given exactly one argument, the trace of `main` is — directories
created, then icons generated, then (exactly when generation succeeded)
manifest written, icons copied, next steps printed; the manifest file is among
the writes if and only if generation returned True, and the exit status is 1
exactly on generation failure. -/
theorem C6_order_and_conditional_manifest (argv : List String) (env : Env)
    (listing : List String) (h2 : argv.length = 2) :
    (main argv env listing).events =
      (if (generate_icons env).ret
       then [.createDirs, .genIcons true, .manifest, .copyIos, .nextSteps]
       else [.createDirs, .genIcons false, .exitCode 1]) ∧
    (create_ios_contents_json ∈ (main argv env listing).writes ↔
      (generate_icons env).ret = true) ∧
    ((main argv env listing).exit
      = if (generate_icons env).ret then none else some 1) := by
  have hb : (argv.length != 2) = false := by simp [h2]
  rw [main_run_eq argv env listing hb]
  cases hret : (generate_icons env).ret
  · rw [if_neg (by simp), if_neg (by simp)]
    refine ⟨rfl, ?_, rfl⟩
    refine iff_of_false ?_ (fun h => Bool.noConfusion h)
    intro hmem
    exact absurd (gen_writes_all env (fun pc => pc.2.isPng) planned_all_png _ hmem)
      (by decide)
  · rw [if_pos rfl, if_pos rfl]
    refine ⟨rfl, iff_of_true ?_ rfl, rfl⟩
    exact List.mem_append.mpr (Or.inl (List.mem_append.mpr (Or.inr (List.mem_singleton.mpr rfl))))

/-- Witness for C6 at the well-formed run. -/
theorem C6_order_and_conditional_manifest_witness :
    (main argvOk envOk iosFilenames).events =
      (if (generate_icons envOk).ret
       then [.createDirs, .genIcons true, .manifest, .copyIos, .nextSteps]
       else [.createDirs, .genIcons false, .exitCode 1]) ∧
    (create_ios_contents_json ∈ (main argvOk envOk iosFilenames).writes ↔
      (generate_icons envOk).ret = true) ∧
    ((main argvOk envOk iosFilenames).exit
      = if (generate_icons envOk).ret then none else some 1) :=
  C6_order_and_conditional_manifest argvOk envOk iosFilenames rfl

/-- C7: every file path written by a run of `main` — the generated icons, the
manifest, and the files copied into the appiconset folder — lies under one of
the nine directories `create_directories` creates. -/
theorem C7_writes_under_created_dirs (argv : List String) (env : Env)
    (listing : List String) (hperm : listing.Perm iosFilenames) :
    ∀ pc ∈ (main argv env listing).writes,
      underSomeDir pc.1 = true := by
  intro pc hpc
  cases hb : (argv.length != 2)
  · rw [main_run_eq argv env listing hb] at hpc
    split at hpc
    · rcases List.mem_append.mp hpc with hpc' | hpc'
      · rcases List.mem_append.mp hpc' with hg | hm
        · exact gen_writes_all env _ planned_all_under pc hg
        · rw [List.mem_singleton.mp hm]
          decide
      · have hcopy : copy_icons_to_ios true listing
              (applyWrites (generate_icons env).writes emptyFS)
            = (listing.filter fun f => endsWithStr f ".png").filterMap
                (fun f =>
                  match applyWrites (generate_icons env).writes emptyFS
                      ("assets/app_icons/generated/ios/" ++ f) with
                  | some c =>
                    some ("ios/Runner/Assets.xcassets/AppIcon.appiconset/"
                      ++ f, c)
                  | none => none) := rfl
        rw [hcopy] at hpc'
        obtain ⟨f, hf, heq⟩ := List.mem_filterMap.mp hpc'
        have hfl : f ∈ iosFilenames :=
          hperm.mem_iff.mp (List.mem_filter.mp hf).1
        cases hfs : applyWrites (generate_icons env).writes emptyFS
            ("assets/app_icons/generated/ios/" ++ f) with
        | none => rw [hfs] at heq; exact Option.noConfusion heq
        | some c =>
          rw [hfs] at heq
          obtain rfl : ("ios/Runner/Assets.xcassets/AppIcon.appiconset/" ++ f, c)
              = pc := Option.some.inj heq
          fin_cases hfl <;> rfl
    · exact gen_writes_all env _ planned_all_under pc hpc
  · rw [main_usage_eq argv env listing hb] at hpc
    exact absurd hpc (List.not_mem_nil pc)

/-- Witness for C7: the mdpi launcher icon written by the well-formed run lies
under a created directory. -/
theorem C7_writes_under_created_dirs_witness :
    underSomeDir ("android/app/src/main/res/mipmap-mdpi/ic_launcher.png"
        : Path) = true :=
  C7_writes_under_created_dirs argvOk envOk iosFilenames (List.Perm.refl _)
    ("android/app/src/main/res/mipmap-mdpi/ic_launcher.png",
      FileContent.png (ImageData.resized (ImageData.src srcOk) 48 48))
    (by decide)

/-- The copy step is order-insensitive: permuted listings give permuted copy
writes. -/
theorem copy_perm (l1 l2 : List String) (h : l1.Perm l2)
    (fs : Path → Option FileContent) :
    (copy_icons_to_ios true l1 fs).Perm (copy_icons_to_ios true l2 fs) := by
  unfold copy_icons_to_ios
  rw [if_neg (by simp), if_neg (by simp)]
  exact (h.filter _).filterMap _

/-- C8: the run is deterministic and stateless — `main` is a pure function of
the command line and the source-image environment, and the one ambient choice
the OS makes (the order `os.listdir` returns the generated icons in) does not
affect the outcome: permuted listings give the same event trace, the same exit
status, and the same multiset of (path, content) writes. -/
theorem C8_deterministic_outputs (argv : List String) (env : Env)
    (l1 l2 : List String) (h : l1.Perm l2) :
    (main argv env l1).writes.Perm (main argv env l2).writes ∧
    (main argv env l1).events = (main argv env l2).events ∧
    (main argv env l1).exit = (main argv env l2).exit := by
  cases hb : (argv.length != 2)
  · rw [main_run_eq argv env l1 hb, main_run_eq argv env l2 hb]
    cases hret : (generate_icons env).ret
    · rw [if_neg (by simp), if_neg (by simp)]
      exact ⟨List.Perm.refl _, rfl, rfl⟩
    · rw [if_pos rfl, if_pos rfl]
      exact ⟨List.Perm.append_left _ (copy_perm l1 l2 h _), rfl, rfl⟩
  · rw [main_usage_eq argv env l1 hb, main_usage_eq argv env l2 hb]
    exact ⟨List.Perm.refl _, rfl, rfl⟩

/-- Witness for C8 with two orderings of a two-file listing. -/
theorem C8_deterministic_outputs_witness :
    (main argvOk envOk ["a.png", "b.txt"]).writes.Perm
      (main argvOk envOk ["b.txt", "a.png"]).writes ∧
    (main argvOk envOk ["a.png", "b.txt"]).events =
      (main argvOk envOk ["b.txt", "a.png"]).events ∧
    (main argvOk envOk ["a.png", "b.txt"]).exit =
      (main argvOk envOk ["b.txt", "a.png"]).exit :=
  C8_deterministic_outputs argvOk envOk ["a.png", "b.txt"] ["b.txt", "a.png"]
    (by decide)

/-- C9: for every Android density row of the table, the content written to
`mipmap-<density>/ic_launcher_round.png` is identical to the content written
beside it as `ic_launcher.png` — both are exactly the source resized to that
row's dimensions. -/
theorem C9_round_equals_launcher (env : Env) (s : SrcImage)
    (hex : env.sourceExists = true) (hopen : env.openResult = some s)
    (hsave : env.saveFail = none) :
    ∀ t ∈ ICON_SIZES "android",
      (((generate_icons env).writes.filter fun pc =>
          pc.1 == "android/app/src/main/res/mipmap-" ++ t.2.2
            ++ "/ic_launcher.png")).map Prod.snd =
        [FileContent.png (ImageData.resized (ImageData.src s) t.1 t.2.1)] ∧
      (((generate_icons env).writes.filter fun pc =>
          pc.1 == "android/app/src/main/res/mipmap-" ++ t.2.2
            ++ "/ic_launcher_round.png")).map Prod.snd =
        [FileContent.png (ImageData.resized (ImageData.src s) t.1 t.2.1)] := by
  obtain ⟨a, b, c⟩ := env
  subst hex; subst hopen; subst hsave
  intro t ht
  rw [show ICON_SIZES "android" =
    [(192, 192, "xxxhdpi"), (144, 144, "xxhdpi"), (96, 96, "xhdpi"),
     (72, 72, "hdpi"), (48, 48, "mdpi")] from rfl] at ht
  fin_cases ht <;> exact ⟨rfl, rfl⟩

/-- Witness for C9 at the mdpi row of the well-formed run. -/
theorem C9_round_equals_launcher_witness :
    (((generate_icons envOk).writes.filter fun pc =>
        pc.1 == "android/app/src/main/res/mipmap-" ++ "mdpi"
          ++ "/ic_launcher.png")).map Prod.snd =
      [FileContent.png (ImageData.resized (ImageData.src srcOk) 48 48)] ∧
    (((generate_icons envOk).writes.filter fun pc =>
        pc.1 == "android/app/src/main/res/mipmap-" ++ "mdpi"
          ++ "/ic_launcher_round.png")).map Prod.snd =
      [FileContent.png (ImageData.resized (ImageData.src srcOk) 48 48)] :=
  C9_round_equals_launcher envOk srcOk rfl rfl rfl (48, 48, "mdpi") (by decide)

/-- C10: invoked with other than exactly one source-image argument, `main`
prints the usage message and exits with status 1, having created no directory
and written no file. -/
theorem C10_usage_exit (argv : List String) (env : Env)
    (listing : List String) (h : argv.length ≠ 2) :
    (main argv env listing).events = [.usage, .exitCode 1] ∧
    (main argv env listing).writes = [] ∧
    (main argv env listing).exit = some 1 ∧
    Event.createDirs ∉ (main argv env listing).events := by
  rw [main_usage_eq argv env listing (bne_iff_ne.mpr h)]
  exact ⟨rfl, rfl, rfl, by decide⟩

/-- Witness for C10 with an empty argument list. -/
theorem C10_usage_exit_witness :
    (main ["setup_app_icon.py"] envOk []).events = [.usage, .exitCode 1] ∧
    (main ["setup_app_icon.py"] envOk []).writes = [] ∧
    (main ["setup_app_icon.py"] envOk []).exit = some 1 ∧
    Event.createDirs ∉ (main ["setup_app_icon.py"] envOk []).events :=
  C10_usage_exit ["setup_app_icon.py"] envOk [] (by decide)

end SetupAppIcon
